import Mathlib

/-!
Verification of the CityPulse normalization and scoring pipeline.

This file gives a shallow embedding, over exact rational arithmetic, of the
data model and the pure computational core of the CityPulse urban-health
dashboard: the diagnostic engine (category scores, weighted overall score,
severity bands, recommendations), the three per-source normalizers
(air quality, weather, seismic events) and the vitals assembly step that
merges settled fetch results into a CityVitals record.  JavaScript numbers
are modelled as rationals, JS Math.round and Number.toFixed are modelled
explicitly, and rejected promises are modelled by an explicit Settled sum
type.  The theorems at the end settle the specification claims about this
pipeline.
-/

namespace CityPulse

/-- Model of JavaScript Math.round: round half toward positive infinity. -/
def jsRound (x : ℚ) : ℤ := ⌊x + 1 / 2⌋

/-- Model of JavaScript Number.toFixed applied to a rational: ECMA-262
splits off the sign and rounds the magnitude half away from zero to the
requested number of digits, then prints with a fixed-length fraction. -/
def jsToFixed (digits : ℕ) (q : ℚ) : String :=
  let sign := if q < 0 then "-" else ""
  let n : ℕ := (⌊|q| * (10 : ℚ) ^ digits + 1 / 2⌋).toNat
  let ip := n / 10 ^ digits
  let fp := n % 10 ^ digits
  if digits = 0 then sign ++ toString ip
  else
    let fs := toString fp
    let pad := String.mk (List.replicate (digits - fs.length) (Char.ofNat 48))
    sign ++ toString ip ++ "." ++ pad ++ fs

/-- Status values of the heartRate (urban activity) vital. -/
inductive ActivityStatus where
  | normal
  | elevated
  | critical
deriving DecidableEq

/-- Trend values shared by the heartRate and temperature vitals. -/
inductive MotionTrend where
  | increasing
  | stable
  | decreasing
deriving DecidableEq

/-- Status values of the temperature vital. -/
inductive TempStatus where
  | normal
  | fever
  | critical
deriving DecidableEq

/-- Status values of the bloodOxygen (air quality) vital. -/
inductive AirStatus where
  | healthy
  | unhealthy
  | hazardous
deriving DecidableEq

/-- Trend values of the bloodOxygen (air quality) vital. -/
inductive AirTrend where
  | improving
  | stable
  | worsening
deriving DecidableEq

/-- Status values of the immuneSystem (green space) vital. -/
inductive GreenStatus where
  | strong
  | weak
  | compromised
deriving DecidableEq

/-- Trend values of the immuneSystem (green space) vital. -/
inductive GreenTrend where
  | improving
  | stable
  | declining
deriving DecidableEq

/-- Status values of the infections (disasters and pollution) vital. -/
inductive InfectionStatus where
  | clean
  | infected
  | critical
deriving DecidableEq

/-- Status values of the overallHealth record of CityVitals. -/
inductive OverallStatus where
  | excellent
  | good
  | fair
  | poor
  | critical
deriving DecidableEq

/-- Severity levels of a DiagnosticResult. -/
inductive Severity where
  | low
  | medium
  | high
  | critical
deriving DecidableEq

/-- The three pollutant averages carried by the bloodOxygen vital. -/
structure Pollutants where
  no2 : ℚ
  pm25 : ℚ
  o3 : ℚ
deriving DecidableEq

/-- The heartRate sub-record of CityVitals (nighttime-light urban activity). -/
structure HeartRateVital where
  value : ℚ
  status : ActivityStatus
  trend : MotionTrend
  description : String
deriving DecidableEq

/-- The temperature sub-record of CityVitals. -/
structure TemperatureVital where
  value : ℚ
  heatIslandEffect : ℚ
  status : TempStatus
  trend : MotionTrend
  description : String
deriving DecidableEq

/-- The bloodOxygen sub-record of CityVitals (air quality). -/
structure BloodOxygenVital where
  value : ℚ
  pollutants : Pollutants
  status : AirStatus
  trend : AirTrend
  description : String
deriving DecidableEq

/-- The immuneSystem sub-record of CityVitals (green space). -/
structure ImmuneSystemVital where
  greenSpaceCoverage : ℚ
  ndvi : ℚ
  status : GreenStatus
  trend : GreenTrend
  description : String
deriving DecidableEq

/-- The infections sub-record of CityVitals (disasters and pollution). -/
structure InfectionsVital where
  disasterEvents : ℚ
  pollutionHotspots : ℚ
  status : InfectionStatus
  description : String
deriving DecidableEq

/-- The overallHealth record of CityVitals, filled by the diagnostic engine. -/
structure OverallHealth where
  score : ℤ
  status : OverallStatus
  diagnosis : String
  recommendations : List String
deriving DecidableEq

/-- The aggregate CityVitals record from src/types (five vitals plus the
overall health summary). -/
structure CityVitals where
  heartRate : HeartRateVital
  temperature : TemperatureVital
  bloodOxygen : BloodOxygenVital
  immuneSystem : ImmuneSystemVital
  infections : InfectionsVital
  overallHealth : OverallHealth
deriving DecidableEq

/-- One per-category entry of the diagnostic engine (HealthScore in
src/types): a label, a score in [0,100], the category weight and the raw
status rendered as a string. -/
structure HealthScore where
  category : String
  score : ℚ
  weight : ℚ
  status : String
deriving DecidableEq

/-- The result record of the diagnostic engine (DiagnosticResult in
src/types). -/
structure DiagnosticResult where
  overallScore : ℤ
  categoryScores : List HealthScore
  diagnosis : String
  recommendations : List String
  severity : Severity
deriving DecidableEq

/-- A location selected on the map (LocationData in src/types). -/
structure LocationData where
  lat : ℚ
  lon : ℚ
  city : Option String
  country : Option String
  timestamp : ℤ
deriving DecidableEq

/-- Rendering of an ActivityStatus as the string literal used in the source. -/
def activityStatusLabel : ActivityStatus → String
  | ActivityStatus.normal => "normal"
  | ActivityStatus.elevated => "elevated"
  | ActivityStatus.critical => "critical"

/-- Rendering of a TempStatus as the string literal used in the source. -/
def tempStatusLabel : TempStatus → String
  | TempStatus.normal => "normal"
  | TempStatus.fever => "fever"
  | TempStatus.critical => "critical"

/-- Rendering of an AirStatus as the string literal used in the source. -/
def airStatusLabel : AirStatus → String
  | AirStatus.healthy => "healthy"
  | AirStatus.unhealthy => "unhealthy"
  | AirStatus.hazardous => "hazardous"

/-- Rendering of a GreenStatus as the string literal used in the source. -/
def greenStatusLabel : GreenStatus → String
  | GreenStatus.strong => "strong"
  | GreenStatus.weak => "weak"
  | GreenStatus.compromised => "compromised"

/-- Rendering of an InfectionStatus as the string literal used in the source. -/
def infectionStatusLabel : InfectionStatus → String
  | InfectionStatus.clean => "clean"
  | InfectionStatus.infected => "infected"
  | InfectionStatus.critical => "critical"

namespace DiagnosticEngine

/-- The five fixed category weights of DiagnosticEngine.CATEGORY_WEIGHTS. -/
structure CategoryWeights where
  heartRate : ℚ
  temperature : ℚ
  bloodOxygen : ℚ
  immuneSystem : ℚ
  infections : ℚ
deriving DecidableEq

/-- DiagnosticEngine.CATEGORY_WEIGHTS from the source: heartRate 0.15,
temperature 0.20, bloodOxygen 0.25, immuneSystem 0.25, infections 0.15. -/
def CATEGORY_WEIGHTS : CategoryWeights :=
  { heartRate := 0.15
    temperature := 0.20
    bloodOxygen := 0.25
    immuneSystem := 0.25
    infections := 0.15 }

/-- DiagnosticEngine.calculateHeartRateScore: start at the raw value, add
the trend adjustment, then the multiplicative status penalty, then clamp
to [0,100]. -/
def calculateHeartRateScore (heartRate : HeartRateVital) : ℚ :=
  let score := heartRate.value
  let score :=
    if heartRate.trend = MotionTrend.increasing then score + 5
    else if heartRate.trend = MotionTrend.decreasing then score - 5
    else score
  let score :=
    if heartRate.status = ActivityStatus.critical then score * 0.5
    else if heartRate.status = ActivityStatus.elevated then score * 0.8
    else score
  max 0 (min 100 score)

/-- DiagnosticEngine.calculateTemperatureScore: start at 100, subtract the
temperature and heat-island penalties, apply the trend adjustment, then the
multiplicative status penalty, then clamp to [0,100]. -/
def calculateTemperatureScore (temperature : TemperatureVital) : ℚ :=
  let score : ℚ := 100
  let score :=
    if temperature.value > 35 then score - 30
    else if temperature.value > 30 then score - 20
    else if temperature.value > 25 then score - 10
    else score
  let score :=
    if temperature.heatIslandEffect > 5 then score - 25
    else if temperature.heatIslandEffect > 3 then score - 15
    else if temperature.heatIslandEffect > 1 then score - 5
    else score
  let score :=
    if temperature.trend = MotionTrend.increasing then score - 10
    else if temperature.trend = MotionTrend.decreasing then score + 5
    else score
  let score :=
    if temperature.status = TempStatus.critical then score * 0.3
    else if temperature.status = TempStatus.fever then score * 0.6
    else score
  max 0 (min 100 score)

/-- DiagnosticEngine.calculateAirQualityScore: start at 100 minus the AQI,
subtract the average-pollutant penalty, apply the trend adjustment, then
the multiplicative status penalty, then clamp to [0,100]. -/
def calculateAirQualityScore (bloodOxygen : BloodOxygenVital) : ℚ :=
  let score := 100 - bloodOxygen.value
  let avgPollutants :=
    (bloodOxygen.pollutants.no2 + bloodOxygen.pollutants.pm25 + bloodOxygen.pollutants.o3) / 3
  let score :=
    if avgPollutants > 50 then score - 30
    else if avgPollutants > 30 then score - 20
    else if avgPollutants > 15 then score - 10
    else score
  let score :=
    if bloodOxygen.trend = AirTrend.worsening then score - 15
    else if bloodOxygen.trend = AirTrend.improving then score + 10
    else score
  let score :=
    if bloodOxygen.status = AirStatus.hazardous then score * 0.2
    else if bloodOxygen.status = AirStatus.unhealthy then score * 0.5
    else score
  max 0 (min 100 score)

/-- DiagnosticEngine.calculateGreenSpaceScore: start at the green-space
coverage, add the NDVI boost, apply the trend adjustment, then the
multiplicative status penalty, then clamp to [0,100]. -/
def calculateGreenSpaceScore (immuneSystem : ImmuneSystemVital) : ℚ :=
  let score := immuneSystem.greenSpaceCoverage
  let score :=
    if immuneSystem.ndvi > 0.7 then score + 20
    else if immuneSystem.ndvi > 0.5 then score + 10
    else if immuneSystem.ndvi < 0.2 then score - 20
    else score
  let score :=
    if immuneSystem.trend = GreenTrend.improving then score + 10
    else if immuneSystem.trend = GreenTrend.declining then score - 15
    else score
  let score :=
    if immuneSystem.status = GreenStatus.compromised then score * 0.4
    else if immuneSystem.status = GreenStatus.weak then score * 0.7
    else score
  max 0 (min 100 score)

/-- DiagnosticEngine.calculateInfectionsScore: start at 100, subtract 15
per combined hazard, apply the multiplicative status penalty, then clamp
to [0,100]. -/
def calculateInfectionsScore (infections : InfectionsVital) : ℚ :=
  let score : ℚ := 100
  let totalHazards := infections.disasterEvents + infections.pollutionHotspots
  let score := score - totalHazards * 15
  let score :=
    if infections.status = InfectionStatus.critical then score * 0.2
    else if infections.status = InfectionStatus.infected then score * 0.5
    else score
  max 0 (min 100 score)

/-- DiagnosticEngine.calculateCategoryScores: the five labelled HealthScore
entries, in the fixed order of the source. -/
def calculateCategoryScores (vitals : CityVitals) : List HealthScore :=
  [ { category := "Heart Rate (Urban Activity)"
      score := calculateHeartRateScore vitals.heartRate
      weight := CATEGORY_WEIGHTS.heartRate
      status := activityStatusLabel vitals.heartRate.status }
  , { category := "Temperature (Heat Island)"
      score := calculateTemperatureScore vitals.temperature
      weight := CATEGORY_WEIGHTS.temperature
      status := tempStatusLabel vitals.temperature.status }
  , { category := "Air Quality"
      score := calculateAirQualityScore vitals.bloodOxygen
      weight := CATEGORY_WEIGHTS.bloodOxygen
      status := airStatusLabel vitals.bloodOxygen.status }
  , { category := "Green Space"
      score := calculateGreenSpaceScore vitals.immuneSystem
      weight := CATEGORY_WEIGHTS.immuneSystem
      status := greenStatusLabel vitals.immuneSystem.status }
  , { category := "Environmental Hazards"
      score := calculateInfectionsScore vitals.infections
      weight := CATEGORY_WEIGHTS.infections
      status := infectionStatusLabel vitals.infections.status } ]

/-- DiagnosticEngine.calculateOverallScore: Math.round of the weighted sum
of the category scores (reduce with initial accumulator 0). -/
def calculateOverallScore (categoryScores : List HealthScore) : ℤ :=
  jsRound (categoryScores.foldl (fun sum category => sum + category.score * category.weight) 0)

/-- DiagnosticEngine.generateDiagnosisText: fixed template selected by
score band. -/
def generateDiagnosisText (score : ℤ) (_vitals : CityVitals) : String :=
  if score ≥ 90 then
    "This city is in excellent health! All vital signs are strong, showing a well-balanced urban ecosystem with good air quality, adequate green space, and minimal environmental hazards."
  else if score ≥ 75 then
    "The city shows good overall health with minor areas for improvement. Most vital signs are within normal ranges, but there may be some environmental concerns to address."
  else if score ≥ 60 then
    "The city\x27s health is fair but requires attention. Several vital signs indicate moderate stress, particularly in air quality or heat management. Immediate action is recommended."
  else if score ≥ 40 then
    "The city is showing signs of poor health with multiple concerning vital signs. Environmental stress is evident, and comprehensive intervention is needed to restore urban wellness."
  else
    "CRITICAL: The city is in poor health with multiple critical vital signs. Immediate environmental intervention is required to prevent further degradation of urban health."

/-- DiagnosticEngine.generateRecommendations: per-condition candidate
blocks concatenated in the source's fixed priority order, with the generic
fallback block when nothing triggered, truncated to the first 5. -/
def generateRecommendations (vitals : CityVitals) (_categoryScores : List HealthScore) :
    List String :=
  let recommendations : List String :=
    (if vitals.bloodOxygen.status = AirStatus.hazardous ∨
        vitals.bloodOxygen.status = AirStatus.unhealthy then
      [ "ðŸš— Implement low-emission zones and promote electric vehicle adoption"
      , "ðŸŒ³ Increase urban tree canopy to filter air pollutants"
      , "ðŸš´ Develop comprehensive bike lane networks to reduce vehicle emissions" ]
    else []) ++
    (if vitals.temperature.status = TempStatus.critical ∨
        vitals.temperature.status = TempStatus.fever then
      [ "ðŸ¢ Mandate cool roof technologies for new and existing buildings"
      , "ðŸŒ¿ Create green corridors to channel cool air through the city"
      , "ðŸ’§ Implement water features and reflective surfaces in public spaces" ]
    else []) ++
    (if vitals.immuneSystem.status = GreenStatus.weak ∨
        vitals.immuneSystem.status = GreenStatus.compromised then
      [ "ðŸŒ³ Establish pocket parks and community gardens in underserved areas"
      , "ðŸ›¤ï¸ Develop green infrastructure corridors connecting parks and natural areas"
      , "ðŸ˜ï¸ Require green space minimums in new development projects" ]
    else []) ++
    (if vitals.infections.status = InfectionStatus.critical ∨
        vitals.infections.status = InfectionStatus.infected then
      [ "ðŸ›¡ï¸ Strengthen infrastructure resilience against natural disasters"
      , "ðŸ“Š Implement early warning systems for environmental hazards"
      , "ðŸ—ï¸ Develop climate-adaptive building codes and zoning regulations" ]
    else []) ++
    (if vitals.heartRate.status = ActivityStatus.critical ∨
        vitals.heartRate.status = ActivityStatus.elevated then
      [ "ðŸ™ï¸ Promote mixed-use development to reduce urban sprawl"
      , "ðŸšŒ Improve public transportation to reduce traffic congestion"
      , "ðŸ’¡ Implement smart city technologies for efficient resource management" ]
    else [])
  let recommendations :=
    if recommendations.length = 0 then
      [ "âœ… Continue monitoring urban health indicators"
      , "ðŸ“ˆ Set up long-term environmental monitoring systems"
      , "ðŸ¤ Engage community in urban health initiatives" ]
    else recommendations
  recommendations.take 5

/-- DiagnosticEngine.determineSeverity: severity band of an overall score. -/
def determineSeverity (score : ℤ) : Severity :=
  if score ≥ 75 then Severity.low
  else if score ≥ 60 then Severity.medium
  else if score ≥ 40 then Severity.high
  else Severity.critical

/-- DiagnosticEngine.generateDiagnosis: the public entry point assembling
category scores, overall score, diagnosis text, recommendations and
severity into a DiagnosticResult. -/
def generateDiagnosis (vitals : CityVitals) : DiagnosticResult :=
  let categoryScores := calculateCategoryScores vitals
  let overallScore := calculateOverallScore categoryScores
  let diagnosis := generateDiagnosisText overallScore vitals
  let recommendations := generateRecommendations vitals categoryScores
  let severity := determineSeverity overallScore
  { overallScore := overallScore
    categoryScores := categoryScores
    diagnosis := diagnosis
    recommendations := recommendations
    severity := severity }

end DiagnosticEngine

/-- One station measurement in an OpenAQ response; the source defensively
filters out null and undefined values, so the value is an Option. -/
structure Measurement where
  parameter : String
  value : Option ℚ
  unit : String
  lastUpdated : String

/-- One station entry in an OpenAQ response. -/
structure StationResult where
  location : String
  measurements : List Measurement

/-- The raw air-quality response body (OpenAQResponse in src/types). -/
structure OpenAQResponse where
  results : List StationResult

/-- The normalized output record of AirQualityService.processAirQualityData. -/
structure AirQualityData where
  aqi : ℚ
  pollutants : Pollutants
  status : AirStatus
  trend : AirTrend

namespace AirQualityService

/-- AirQualityService.getAverageMeasurement: average of all non-null
values reported for one pollutant parameter, 0 when none. -/
def getAverageMeasurement (measurements : List Measurement) (parameter : String) : ℚ :=
  let values :=
    (measurements.filter (fun m => m.parameter == parameter)).filterMap (fun m => m.value)
  if values.length = 0 then 0
  else values.foldl (fun sum val => sum + val) 0 / values.length

/-- AirQualityService.calculateAQI: the EPA-style piecewise-linear
breakpoint formula keyed on PM2.5. -/
def calculateAQI (pollutants : Pollutants) : ℚ :=
  let pm25 := pollutants.pm25
  if pm25 ≤ 12 then max 0 ((pm25 / 12) * 50)
  else if pm25 ≤ 35.4 then 50 + ((pm25 - 12) / 23.4) * 50
  else if pm25 ≤ 55.4 then 100 + ((pm25 - 35.4) / 20) * 50
  else if pm25 ≤ 150.4 then 150 + ((pm25 - 55.4) / 95) * 100
  else if pm25 ≤ 250.4 then 250 + ((pm25 - 150.4) / 100) * 100
  else min 500 (350 + ((pm25 - 250.4) / 149.6) * 150)

/-- AirQualityService.determineAirQualityStatus: status band of an AQI. -/
def determineAirQualityStatus (aqi : ℚ) : AirStatus :=
  if aqi ≤ 50 then AirStatus.healthy
  else if aqi ≤ 150 then AirStatus.unhealthy
  else AirStatus.hazardous

/-- AirQualityService.determineTrend: single-sample trend heuristic from
the mean of the three pollutant averages. -/
def determineTrend (pollutants : Pollutants) : AirTrend :=
  let avgPollution := (pollutants.no2 + pollutants.pm25 + pollutants.o3) / 3
  if avgPollution < 10 then AirTrend.improving
  else if avgPollution > 30 then AirTrend.worsening
  else AirTrend.stable

/-- AirQualityService.processAirQualityData: empty station list gives the
fail-open default, otherwise aggregate the stations and derive AQI, status
and trend. -/
def processAirQualityData (response : OpenAQResponse) : AirQualityData :=
  if response.results.isEmpty then
    { aqi := 0
      pollutants := { no2 := 0, pm25 := 0, o3 := 0 }
      status := AirStatus.healthy
      trend := AirTrend.stable }
  else
    let measurements := response.results.flatMap (fun result => result.measurements)
    let pollutants : Pollutants :=
      { no2 := getAverageMeasurement measurements ("no2")
        pm25 := getAverageMeasurement measurements ("pm25")
        o3 := getAverageMeasurement measurements ("o3") }
    let aqi := calculateAQI pollutants
    let status := determineAirQualityStatus aqi
    let trend := determineTrend pollutants
    { aqi := aqi, pollutants := pollutants, status := status, trend := trend }

end AirQualityService

/-- The main block of an OpenWeatherMap response (WeatherResponse.main in
src/types). -/
structure WeatherMain where
  temp : ℚ
  feels_like : ℚ
  temp_min : ℚ
  temp_max : ℚ
  pressure : ℚ
  humidity : ℚ

/-- Coordinates echoed back by the weather provider. -/
structure WeatherCoord where
  lon : ℚ
  lat : ℚ

/-- The raw weather response body (WeatherResponse in src/types). -/
structure WeatherResponse where
  main : WeatherMain
  coord : WeatherCoord
  name : String

/-- The normalized output record of WeatherService.processWeatherData. -/
structure TemperatureData where
  temperature : ℚ
  heatIslandEffect : ℚ
  status : TempStatus
  trend : MotionTrend
  description : String

namespace WeatherService

/-- WeatherService.estimateHeatIslandEffect: step function of the absolute
temperature. -/
def estimateHeatIslandEffect (temperature : ℚ) : ℚ :=
  if temperature > 35 then 5.0
  else if temperature > 30 then 3.0
  else if temperature > 25 then 1.5
  else if temperature > 20 then 0.5
  else 0

/-- WeatherService.determineTemperatureStatus: critical above 40, fever
above 35, normal otherwise (both thresholds strict). -/
def determineTemperatureStatus (temperature : ℚ) : TempStatus :=
  if temperature > 40 then TempStatus.critical
  else if temperature > 35 then TempStatus.fever
  else TempStatus.normal

/-- WeatherService.determineTemperatureTrend: single-sample trend
heuristic. -/
def determineTemperatureTrend (temperature : ℚ) : MotionTrend :=
  if temperature > 30 then MotionTrend.increasing
  else if temperature < 15 then MotionTrend.decreasing
  else MotionTrend.stable

/-- WeatherService.generateTemperatureDescription. -/
def generateTemperatureDescription (temperature : ℚ) (heatIslandEffect : ℚ)
    (status : TempStatus) : String :=
  let description := "Current temperature: " ++ jsToFixed 1 temperature ++ "°C"
  let description := description ++
    (if heatIslandEffect > 3 then
      ". Strong urban heat island effect detected (+" ++ jsToFixed 1 heatIslandEffect ++
        "°C above surrounding areas)."
    else if heatIslandEffect > 1 then
      ". Moderate heat island effect (+" ++ jsToFixed 1 heatIslandEffect ++ "°C)."
    else ". Minimal heat island effect.")
  let description := description ++
    (if status = TempStatus.critical then
      " CRITICAL: Extreme heat conditions require immediate attention."
    else if status = TempStatus.fever then
      " Elevated temperatures detected - heat management needed."
    else "")
  description

/-- WeatherService.processWeatherData: the temperature value is the raw
main.temp of the provider response; heat island, status, trend and
description are derived from it. -/
def processWeatherData (response : WeatherResponse) : TemperatureData :=
  let temperature := response.main.temp
  let heatIslandEffect := estimateHeatIslandEffect temperature
  let status := determineTemperatureStatus temperature
  let trend := determineTemperatureTrend temperature
  let description := generateTemperatureDescription temperature heatIslandEffect status
  { temperature := temperature
    heatIslandEffect := heatIslandEffect
    status := status
    trend := trend
    description := description }

end WeatherService

/-- The properties block of one USGS earthquake feature; only the fields
the normalizer reads are modelled (time is epoch milliseconds). -/
structure QuakeProperties where
  mag : ℚ
  place : String
  time : ℤ

/-- One feature of a USGS earthquake response. -/
structure QuakeFeature where
  properties : QuakeProperties
  id : String

/-- The raw seismic response body (USGSEarthquakeResponse in src/types). -/
structure USGSEarthquakeResponse where
  features : List QuakeFeature

/-- The normalized output record of
EarthquakeService.processEarthquakeData. -/
structure DisasterData where
  disasterEvents : ℚ
  pollutionHotspots : ℚ
  status : InfectionStatus
  description : String

/-- The recentEarthquakes count computed inside
EarthquakeService.processEarthquakeData: the number of seismic events of a
response whose daysAgo value, relative to the clock value now in epoch
milliseconds, is at most 30. -/
def recentQuakeCount (now : ℤ) (response : USGSEarthquakeResponse) : ℕ :=
  (response.features.filter (fun earthquake =>
    decide ((((now : ℚ) - (earthquake.properties.time : ℚ)) / (1000 * 60 * 60 * 24)) ≤ 30))).length

namespace EarthquakeService

/-- EarthquakeService.processEarthquakeData: count the events of the last
30 days (recentQuakeCount, with daysAgo computed from the ambient clock
`now` in epoch milliseconds), never report pollution hotspots, and band
the status as clean / infected (1-2) / critical (3 or more). -/
def processEarthquakeData (now : ℤ) (response : USGSEarthquakeResponse) : DisasterData :=
  if response.features.isEmpty then
    { disasterEvents := 0
      pollutionHotspots := 0
      status := InfectionStatus.clean
      description := "No recent natural disasters detected in the area." }
  else if recentQuakeCount now response = 0 then
    { disasterEvents := (recentQuakeCount now response : ℚ)
      pollutionHotspots := 0
      status := InfectionStatus.clean
      description := "No recent natural disasters detected in the area." }
  else if recentQuakeCount now response ≤ 2 then
    { disasterEvents := (recentQuakeCount now response : ℚ)
      pollutionHotspots := 0
      status := InfectionStatus.infected
      description := "Low disaster activity: " ++ toString (recentQuakeCount now response) ++
        " earthquake(s) in the last 30 days." }
  else
    { disasterEvents := (recentQuakeCount now response : ℚ)
      pollutionHotspots := 0
      status := InfectionStatus.critical
      description := "High disaster activity: " ++ toString (recentQuakeCount now response) ++
        " earthquake(s) in the last 30 days." }

end EarthquakeService

/-- From DataValidator (src/services/dataValidator.ts): the documented
plausible range check for a temperature value; the validator warns exactly
when the value is below -50 or above 60 degrees Celsius. -/
def temperatureValueUnrealistic (temp : ℚ) : Prop := temp < -50 ∨ temp > 60

/-- The outcome of one settled promise from Promise.allSettled: either
fulfilled with a response value, or rejected. -/
inductive Settled (α : Type) where
  | fulfilled (value : α)
  | rejected

/-- The air-quality arm of processCityVitals in App.tsx: the fail-open
default, overwritten by the processed response when the fetch fulfilled. -/
def settleAirQuality (airQualityResult : Settled OpenAQResponse) : AirQualityData :=
  match airQualityResult with
  | Settled.fulfilled value => AirQualityService.processAirQualityData value
  | Settled.rejected =>
    { aqi := 0
      pollutants := { no2 := 0, pm25 := 0, o3 := 0 }
      status := AirStatus.healthy
      trend := AirTrend.stable }

/-- The seismic arm of processCityVitals in App.tsx: the clean default,
overwritten by the processed response when the fetch fulfilled. -/
def settleDisaster (now : ℤ) (earthquakeResult : Settled USGSEarthquakeResponse) :
    DisasterData :=
  match earthquakeResult with
  | Settled.fulfilled value => EarthquakeService.processEarthquakeData now value
  | Settled.rejected =>
    { disasterEvents := 0
      pollutionHotspots := 0
      status := InfectionStatus.clean
      description := "No recent natural disasters detected." }

/-- The weather arm of processCityVitals in App.tsx: the neutral default,
overwritten by the processed response when the fetch fulfilled. -/
def settleTemperature (weatherResult : Settled WeatherResponse) : TemperatureData :=
  match weatherResult with
  | Settled.fulfilled value => WeatherService.processWeatherData value
  | Settled.rejected =>
    { temperature := 20
      heatIslandEffect := 0
      status := TempStatus.normal
      trend := MotionTrend.stable
      description := "Temperature data unavailable." }

/-- The mockVitals record assembled inside processCityVitals in App.tsx:
the three settled metrics merged with the two synthesized vitals.
heartRand, greenRand and ndviRand are the three Math.random() draws
(each in [0,1)) used for the synthesized heartRate and immuneSystem
fields. -/
def assembledVitals (airQuality : AirQualityData) (disasterData : DisasterData)
    (temperatureData : TemperatureData) (heartRand greenRand ndviRand : ℚ) : CityVitals :=
  { heartRate :=
      { value := ((⌊heartRand * 40⌋ : ℤ) : ℚ) + 60
        status := ActivityStatus.normal
        trend := MotionTrend.stable
        description := "Urban activity levels are normal based on nighttime light intensity." }
    temperature :=
      { value := temperatureData.temperature
        heatIslandEffect := temperatureData.heatIslandEffect
        status := temperatureData.status
        trend := temperatureData.trend
        description := temperatureData.description }
    bloodOxygen :=
      { value := airQuality.aqi
        pollutants := airQuality.pollutants
        status := airQuality.status
        trend := airQuality.trend
        description := "Air quality index: " ++ jsToFixed 0 airQuality.aqi ++ ". " ++
          (if airQuality.status = AirStatus.healthy then "Good air quality."
           else "Air quality concerns detected.") }
    immuneSystem :=
      { greenSpaceCoverage := ((⌊greenRand * 30⌋ : ℤ) : ℚ) + 10
        ndvi := ndviRand * 0.8 + 0.2
        status := GreenStatus.strong
        trend := GreenTrend.stable
        description := "Vegetation coverage and health are within normal ranges." }
    infections :=
      { disasterEvents := disasterData.disasterEvents
        pollutionHotspots := disasterData.pollutionHotspots
        status := disasterData.status
        description := disasterData.description }
    overallHealth :=
      { score := 0
        status := OverallStatus.fair
        diagnosis := ""
        recommendations := [] } }

/-- processCityVitals from App.tsx: substitute defaults for rejected
fetches, assemble the vitals record, run the diagnostic engine and fill in
overallHealth, mapping severity low / medium / high / critical to status
excellent / good / fair / poor.  The location parameter is carried but,
as in the source, unused; now is the ambient clock and the three rand
parameters are the Math.random() draws of the assembly step. -/
def processCityVitals (_location : LocationData)
    (airQualityResult : Settled OpenAQResponse)
    (earthquakeResult : Settled USGSEarthquakeResponse)
    (weatherResult : Settled WeatherResponse)
    (now : ℤ) (heartRand greenRand ndviRand : ℚ) : CityVitals :=
  let airQuality := settleAirQuality airQualityResult
  let disasterData := settleDisaster now earthquakeResult
  let temperatureData := settleTemperature weatherResult
  let mockVitals :=
    assembledVitals airQuality disasterData temperatureData heartRand greenRand ndviRand
  let diagnosis := DiagnosticEngine.generateDiagnosis mockVitals
  { mockVitals with
    overallHealth :=
      { score := diagnosis.overallScore
        status :=
          if diagnosis.severity = Severity.low then OverallStatus.excellent
          else if diagnosis.severity = Severity.medium then OverallStatus.good
          else if diagnosis.severity = Severity.high then OverallStatus.fair
          else OverallStatus.poor
        diagnosis := diagnosis.diagnosis
        recommendations := diagnosis.recommendations } }

/-- A concrete healthy vitals record: every status is the good one and
every category score evaluates to 100.  Used as the concrete input of
witness theorems. -/
def perfectVitals : CityVitals :=
  { heartRate :=
      { value := 100
        status := ActivityStatus.normal
        trend := MotionTrend.stable
        description := "steady" }
    temperature :=
      { value := 20
        heatIslandEffect := 0
        status := TempStatus.normal
        trend := MotionTrend.stable
        description := "mild" }
    bloodOxygen :=
      { value := 0
        pollutants := { no2 := 0, pm25 := 0, o3 := 0 }
        status := AirStatus.healthy
        trend := AirTrend.stable
        description := "clear" }
    immuneSystem :=
      { greenSpaceCoverage := 100
        ndvi := 0.6
        status := GreenStatus.strong
        trend := GreenTrend.stable
        description := "lush" }
    infections :=
      { disasterEvents := 0
        pollutionHotspots := 0
        status := InfectionStatus.clean
        description := "calm" }
    overallHealth :=
      { score := 0
        status := OverallStatus.fair
        diagnosis := ""
        recommendations := [] } }

/-- A concrete weather response whose raw main.temp (1000 degrees Celsius)
is far outside the validator's documented plausible range. -/
def hotWeatherResponse : WeatherResponse :=
  { main :=
      { temp := 1000
        feels_like := 1000
        temp_min := 1000
        temp_max := 1000
        pressure := 1013
        humidity := 50 }
    coord := { lon := 0, lat := 0 }
    name := "Testville" }

open DiagnosticEngine AirQualityService WeatherService EarthquakeService

/-- The overall score of a diagnosis is Math.round of the weighted sum of
the five category scores (shared helper). -/
theorem generateDiagnosis_overallScore (v : CityVitals) :
    (generateDiagnosis v).overallScore =
      jsRound (0.15 * calculateHeartRateScore v.heartRate +
        0.20 * calculateTemperatureScore v.temperature +
        0.25 * calculateAirQualityScore v.bloodOxygen +
        0.25 * calculateGreenSpaceScore v.immuneSystem +
        0.15 * calculateInfectionsScore v.infections) := by
  show calculateOverallScore (calculateCategoryScores v) = _
  unfold calculateOverallScore calculateCategoryScores CATEGORY_WEIGHTS
  simp only [List.foldl]
  congr 1
  ring

/-- C1: for every CityVitals record the diagnostic engine's overall score
is Math.round of the weighted sum of the five category scores, with
weights heartRate 0.15, temperature 0.20, bloodOxygen 0.25, immuneSystem
0.25, infections 0.15 summing to 1; in particular, when all five category
scores are 100 the overall score is 100. -/
theorem c1_overall_weighted_sum (v : CityVitals) :
    CATEGORY_WEIGHTS = ⟨0.15, 0.20, 0.25, 0.25, 0.15⟩ ∧
    CATEGORY_WEIGHTS.heartRate + CATEGORY_WEIGHTS.temperature +
      CATEGORY_WEIGHTS.bloodOxygen + CATEGORY_WEIGHTS.immuneSystem +
      CATEGORY_WEIGHTS.infections = 1 ∧
    (generateDiagnosis v).overallScore =
      jsRound (0.15 * calculateHeartRateScore v.heartRate +
        0.20 * calculateTemperatureScore v.temperature +
        0.25 * calculateAirQualityScore v.bloodOxygen +
        0.25 * calculateGreenSpaceScore v.immuneSystem +
        0.15 * calculateInfectionsScore v.infections) ∧
    (calculateHeartRateScore v.heartRate = 100 →
     calculateTemperatureScore v.temperature = 100 →
     calculateAirQualityScore v.bloodOxygen = 100 →
     calculateGreenSpaceScore v.immuneSystem = 100 →
     calculateInfectionsScore v.infections = 100 →
     (generateDiagnosis v).overallScore = 100) := by
  refine ⟨rfl, by norm_num [CATEGORY_WEIGHTS], generateDiagnosis_overallScore v, ?_⟩
  intro h1 h2 h3 h4 h5
  rw [generateDiagnosis_overallScore v, h1, h2, h3, h4, h5]
  norm_num [jsRound]

/-- Witness for C1: on the concrete perfect vitals record all five
category scores are 100 and the overall score is 100. -/
theorem c1_witness : (generateDiagnosis perfectVitals).overallScore = 100 :=
  (c1_overall_weighted_sum perfectVitals).2.2.2
    (by simp [calculateHeartRateScore, perfectVitals])
    (by simp [calculateTemperatureScore, perfectVitals]; norm_num)
    (by simp [calculateAirQualityScore, perfectVitals]; norm_num)
    (by simp [calculateGreenSpaceScore, perfectVitals]; norm_num)
    (by simp [calculateInfectionsScore, perfectVitals])

/-- C2: the recommendations list of every diagnosis has between 1 and 5
entries, and when every status is the good one exactly the generic 3-item
monitoring fallback is returned. -/
theorem c2_recommendations_bounds_fallback (v : CityVitals) :
    (1 ≤ (generateDiagnosis v).recommendations.length ∧
      (generateDiagnosis v).recommendations.length ≤ 5) ∧
    (v.heartRate.status = ActivityStatus.normal →
     v.bloodOxygen.status = AirStatus.healthy →
     v.temperature.status = TempStatus.normal →
     v.immuneSystem.status = GreenStatus.strong →
     v.infections.status = InfectionStatus.clean →
     (generateDiagnosis v).recommendations =
       [ "âœ… Continue monitoring urban health indicators"
       , "ðŸ“ˆ Set up long-term environmental monitoring systems"
       , "ðŸ¤ Engage community in urban health initiatives" ]) := by
  have hrec : (generateDiagnosis v).recommendations =
      generateRecommendations v (calculateCategoryScores v) := rfl
  constructor
  · rw [hrec]
    unfold generateRecommendations
    split_ifs <;> simp_all
  · intro h1 h2 h3 h4 h5
    rw [hrec]
    unfold generateRecommendations
    simp [h1, h2, h3, h4, h5]

/-- Witness for C2: on the concrete perfect vitals record, whose statuses
are all good, the diagnosis returns exactly the generic fallback list. -/
theorem c2_witness :
    (generateDiagnosis perfectVitals).recommendations =
      [ "âœ… Continue monitoring urban health indicators"
      , "ðŸ“ˆ Set up long-term environmental monitoring systems"
      , "ðŸ¤ Engage community in urban health initiatives" ] :=
  (c2_recommendations_bounds_fallback perfectVitals).2 rfl rfl rfl rfl rfl

/-- C3: the diagnostic engine is deterministic: two invocations of
generateDiagnosis on the identical CityVitals record agree on every field
of the DiagnosticResult. -/
theorem c3_diagnose_deterministic (v w : CityVitals) (h : v = w) :
    (generateDiagnosis v).overallScore = (generateDiagnosis w).overallScore ∧
    (generateDiagnosis v).categoryScores = (generateDiagnosis w).categoryScores ∧
    (generateDiagnosis v).diagnosis = (generateDiagnosis w).diagnosis ∧
    (generateDiagnosis v).recommendations = (generateDiagnosis w).recommendations ∧
    (generateDiagnosis v).severity = (generateDiagnosis w).severity ∧
    generateDiagnosis v = generateDiagnosis w := by
  subst h
  exact ⟨rfl, rfl, rfl, rfl, rfl, rfl⟩

/-- Witness for C3: the determinism theorem applied at the concrete
perfect vitals record. -/
theorem c3_witness :
    generateDiagnosis perfectVitals = generateDiagnosis perfectVitals :=
  (c3_diagnose_deterministic perfectVitals perfectVitals rfl).2.2.2.2.2

/-- On [0,12] the AQI formula is its first linear piece. -/
theorem aqi_eq_piece1 (p : Pollutants) (h0 : 0 ≤ p.pm25) (h : p.pm25 ≤ 12) :
    calculateAQI p = p.pm25 / 12 * 50 := by
  simp only [calculateAQI]
  rw [if_pos h]
  exact max_eq_right (by positivity)

/-- On [12, 35.4] the AQI formula is its second linear piece. -/
theorem aqi_eq_piece2 (p : Pollutants) (h1 : 12 ≤ p.pm25) (h2 : p.pm25 ≤ 35.4) :
    calculateAQI p = 50 + (p.pm25 - 12) / 23.4 * 50 := by
  rcases eq_or_lt_of_le h1 with h | h
  · simp only [calculateAQI, ← h]
    norm_num
  · simp only [calculateAQI]
    rw [if_neg (not_le.mpr h), if_pos h2]

/-- On [35.4, 55.4] the AQI formula is its third linear piece. -/
theorem aqi_eq_piece3 (p : Pollutants) (h1 : 35.4 ≤ p.pm25) (h2 : p.pm25 ≤ 55.4) :
    calculateAQI p = 100 + (p.pm25 - 35.4) / 20 * 50 := by
  rcases eq_or_lt_of_le h1 with h | h
  · simp only [calculateAQI, ← h]
    norm_num
  · simp only [calculateAQI]
    rw [if_neg (not_le.mpr (by linarith)), if_neg (not_le.mpr h), if_pos h2]

/-- On [55.4, 150.4] the AQI formula is its fourth linear piece. -/
theorem aqi_eq_piece4 (p : Pollutants) (h1 : 55.4 ≤ p.pm25) (h2 : p.pm25 ≤ 150.4) :
    calculateAQI p = 150 + (p.pm25 - 55.4) / 95 * 100 := by
  rcases eq_or_lt_of_le h1 with h | h
  · simp only [calculateAQI, ← h]
    norm_num
  · simp only [calculateAQI]
    rw [if_neg (not_le.mpr (by linarith)), if_neg (not_le.mpr (by linarith)),
      if_neg (not_le.mpr h), if_pos h2]

/-- On [150.4, 250.4] the AQI formula is its fifth linear piece. -/
theorem aqi_eq_piece5 (p : Pollutants) (h1 : 150.4 ≤ p.pm25) (h2 : p.pm25 ≤ 250.4) :
    calculateAQI p = 250 + (p.pm25 - 150.4) / 100 * 100 := by
  rcases eq_or_lt_of_le h1 with h | h
  · simp only [calculateAQI, ← h]
    norm_num
  · simp only [calculateAQI]
    rw [if_neg (not_le.mpr (by linarith)), if_neg (not_le.mpr (by linarith)),
      if_neg (not_le.mpr (by linarith)), if_neg (not_le.mpr h), if_pos h2]

/-- Above 250.4 the AQI formula is its capped sixth piece. -/
theorem aqi_eq_piece6 (p : Pollutants) (h : 250.4 ≤ p.pm25) :
    calculateAQI p = min 500 (350 + (p.pm25 - 250.4) / 149.6 * 150) := by
  rcases eq_or_lt_of_le h with h1 | h1
  · simp only [calculateAQI, ← h1]
    norm_num
  · simp only [calculateAQI]
    rw [if_neg (not_le.mpr (by linarith)), if_neg (not_le.mpr (by linarith)),
      if_neg (not_le.mpr (by linarith)), if_neg (not_le.mpr (by linarith)),
      if_neg (not_le.mpr h1)]

/-- Below PM2.5 = 12 the AQI is at most 50. -/
theorem aqi_le_50 (p : Pollutants) (h : p.pm25 ≤ 12) : calculateAQI p ≤ 50 := by
  simp only [calculateAQI]
  rw [if_pos h]
  exact max_le (by norm_num) (by first | linarith | (ring_nf; linarith))

/-- Above PM2.5 = 12 the AQI is at least 50. -/
theorem aqi_ge_50 (p : Pollutants) (h : 12 ≤ p.pm25) : 50 ≤ calculateAQI p := by
  simp only [calculateAQI]
  split_ifs <;>
    first
      | linarith
      | (ring_nf; linarith)
      | exact le_max_of_le_right (by first | linarith | (ring_nf; linarith))
      | exact le_min (by norm_num) (by first | linarith | (ring_nf; linarith))

/-- Below PM2.5 = 35.4 the AQI is at most 100. -/
theorem aqi_le_100 (p : Pollutants) (h : p.pm25 ≤ 35.4) : calculateAQI p ≤ 100 := by
  simp only [calculateAQI]
  split_ifs <;>
    first
      | exact max_le (by norm_num) (by first | linarith | (ring_nf; linarith))
      | linarith
      | (ring_nf; linarith)
      | (exfalso; linarith)

/-- Above PM2.5 = 35.4 the AQI is at least 100. -/
theorem aqi_ge_100 (p : Pollutants) (h : 35.4 ≤ p.pm25) : 100 ≤ calculateAQI p := by
  simp only [calculateAQI]
  split_ifs <;>
    first
      | linarith
      | (ring_nf; linarith)
      | exact le_min (by norm_num) (by first | linarith | (ring_nf; linarith))
      | (exfalso; linarith)

/-- Below PM2.5 = 55.4 the AQI is at most 150. -/
theorem aqi_le_150 (p : Pollutants) (h : p.pm25 ≤ 55.4) : calculateAQI p ≤ 150 := by
  simp only [calculateAQI]
  split_ifs <;>
    first
      | exact max_le (by norm_num) (by first | linarith | (ring_nf; linarith))
      | linarith
      | (ring_nf; linarith)
      | (exfalso; linarith)

/-- Above PM2.5 = 55.4 the AQI is at least 150. -/
theorem aqi_ge_150 (p : Pollutants) (h : 55.4 ≤ p.pm25) : 150 ≤ calculateAQI p := by
  simp only [calculateAQI]
  split_ifs <;>
    first
      | linarith
      | (ring_nf; linarith)
      | exact le_min (by norm_num) (by first | linarith | (ring_nf; linarith))
      | (exfalso; linarith)

/-- Below PM2.5 = 150.4 the AQI is at most 250. -/
theorem aqi_le_250 (p : Pollutants) (h : p.pm25 ≤ 150.4) : calculateAQI p ≤ 250 := by
  simp only [calculateAQI]
  split_ifs <;>
    first
      | exact max_le (by norm_num) (by first | linarith | (ring_nf; linarith))
      | linarith
      | (ring_nf; linarith)
      | (exfalso; linarith)

/-- Above PM2.5 = 150.4 the AQI is at least 250. -/
theorem aqi_ge_250 (p : Pollutants) (h : 150.4 ≤ p.pm25) : 250 ≤ calculateAQI p := by
  simp only [calculateAQI]
  split_ifs <;>
    first
      | linarith
      | (ring_nf; linarith)
      | exact le_min (by norm_num) (by first | linarith | (ring_nf; linarith))
      | (exfalso; linarith)

/-- Below PM2.5 = 250.4 the AQI is at most 350. -/
theorem aqi_le_350 (p : Pollutants) (h : p.pm25 ≤ 250.4) : calculateAQI p ≤ 350 := by
  simp only [calculateAQI]
  split_ifs <;>
    first
      | exact max_le (by norm_num) (by first | linarith | (ring_nf; linarith))
      | linarith
      | (ring_nf; linarith)
      | (exfalso; linarith)

/-- Above PM2.5 = 250.4 the AQI is at least 350. -/
theorem aqi_ge_350 (p : Pollutants) (h : 250.4 ≤ p.pm25) : 350 ≤ calculateAQI p := by
  simp only [calculateAQI]
  split_ifs <;>
    first
      | linarith
      | (ring_nf; linarith)
      | exact le_min (by norm_num) (by first | linarith | (ring_nf; linarith))
      | (exfalso; linarith)

/-- The AQI formula never returns a negative value. -/
theorem aqi_nonneg (p : Pollutants) : 0 ≤ calculateAQI p := by
  simp only [calculateAQI]
  split_ifs <;>
    first
      | exact le_max_left _ _
      | linarith
      | (ring_nf; linarith)
      | exact le_min (by norm_num) (by first | linarith | (ring_nf; linarith))

/-- The AQI formula never exceeds 500. -/
theorem aqi_le_500 (p : Pollutants) : calculateAQI p ≤ 500 := by
  simp only [calculateAQI]
  split_ifs <;>
    first
      | exact max_le (by norm_num) (by first | linarith | (ring_nf; linarith))
      | linarith
      | (ring_nf; linarith)
      | exact min_le_left _ _

/-- The AQI formula is monotone in PM2.5 on the nonnegative axis. -/
theorem aqi_mono (p q : Pollutants) (h0 : 0 ≤ p.pm25) (hpq : p.pm25 ≤ q.pm25) :
    calculateAQI p ≤ calculateAQI q := by
  rcases le_or_lt q.pm25 12 with hq | hq
  · rw [aqi_eq_piece1 p h0 (hpq.trans hq), aqi_eq_piece1 q (h0.trans hpq) hq]
    first | linarith | (ring_nf; linarith)
  · rcases le_or_lt q.pm25 35.4 with hq2 | hq2
    · rcases le_or_lt p.pm25 12 with hp | hp
      · exact (aqi_le_50 p hp).trans (aqi_ge_50 q hq.le)
      · rw [aqi_eq_piece2 p hp.le (hpq.trans hq2), aqi_eq_piece2 q hq.le hq2]
        first | linarith | (ring_nf; linarith)
    · rcases le_or_lt q.pm25 55.4 with hq3 | hq3
      · rcases le_or_lt p.pm25 35.4 with hp | hp
        · exact (aqi_le_100 p hp).trans (aqi_ge_100 q hq2.le)
        · rw [aqi_eq_piece3 p hp.le (hpq.trans hq3), aqi_eq_piece3 q hq2.le hq3]
          first | linarith | (ring_nf; linarith)
      · rcases le_or_lt q.pm25 150.4 with hq4 | hq4
        · rcases le_or_lt p.pm25 55.4 with hp | hp
          · exact (aqi_le_150 p hp).trans (aqi_ge_150 q hq3.le)
          · rw [aqi_eq_piece4 p hp.le (hpq.trans hq4), aqi_eq_piece4 q hq3.le hq4]
            first | linarith | (ring_nf; linarith)
        · rcases le_or_lt q.pm25 250.4 with hq5 | hq5
          · rcases le_or_lt p.pm25 150.4 with hp | hp
            · exact (aqi_le_250 p hp).trans (aqi_ge_250 q hq4.le)
            · rw [aqi_eq_piece5 p hp.le (hpq.trans hq5), aqi_eq_piece5 q hq4.le hq5]
              first | linarith | (ring_nf; linarith)
          · rcases le_or_lt p.pm25 250.4 with hp | hp
            · exact (aqi_le_350 p hp).trans (aqi_ge_350 q hq5.le)
            · rw [aqi_eq_piece6 p hp.le, aqi_eq_piece6 q hq5.le]
              exact min_le_min le_rfl (by ring_nf; linarith)

/-- Local continuity bound of the AQI formula at the breakpoint 12. -/
theorem aqi_near_12 (ε δ : ℚ) (hε : 0 < ε) (hδ1 : δ ≤ 1) (hδ2 : δ ≤ ε / 5)
    (p : Pollutants) (hp : |p.pm25 - 12| < δ) : |calculateAQI p - 50| < ε := by
  rw [abs_lt] at hp ⊢
  obtain ⟨hp1, hp2⟩ := hp
  rcases le_or_lt p.pm25 12 with hx | hx
  · rw [aqi_eq_piece1 p (by linarith) hx]
    constructor <;> first | linarith | (ring_nf; linarith)
  · rw [aqi_eq_piece2 p hx.le (by linarith)]
    constructor <;> first | linarith | (ring_nf; linarith)

/-- Local continuity bound of the AQI formula at the breakpoint 35.4. -/
theorem aqi_near_35_4 (ε δ : ℚ) (hε : 0 < ε) (hδ1 : δ ≤ 1) (hδ2 : δ ≤ ε / 5)
    (p : Pollutants) (hp : |p.pm25 - 35.4| < δ) : |calculateAQI p - 100| < ε := by
  rw [abs_lt] at hp ⊢
  obtain ⟨hp1, hp2⟩ := hp
  rcases le_or_lt p.pm25 35.4 with hx | hx
  · rw [aqi_eq_piece2 p (by linarith) hx]
    constructor <;> first | linarith | (ring_nf; linarith)
  · rw [aqi_eq_piece3 p hx.le (by linarith)]
    constructor <;> first | linarith | (ring_nf; linarith)

/-- Local continuity bound of the AQI formula at the breakpoint 55.4. -/
theorem aqi_near_55_4 (ε δ : ℚ) (hε : 0 < ε) (hδ1 : δ ≤ 1) (hδ2 : δ ≤ ε / 5)
    (p : Pollutants) (hp : |p.pm25 - 55.4| < δ) : |calculateAQI p - 150| < ε := by
  rw [abs_lt] at hp ⊢
  obtain ⟨hp1, hp2⟩ := hp
  rcases le_or_lt p.pm25 55.4 with hx | hx
  · rw [aqi_eq_piece3 p (by linarith) hx]
    constructor <;> first | linarith | (ring_nf; linarith)
  · rw [aqi_eq_piece4 p hx.le (by linarith)]
    constructor <;> first | linarith | (ring_nf; linarith)

/-- Local continuity bound of the AQI formula at the breakpoint 150.4. -/
theorem aqi_near_150_4 (ε δ : ℚ) (hε : 0 < ε) (hδ1 : δ ≤ 1) (hδ2 : δ ≤ ε / 5)
    (p : Pollutants) (hp : |p.pm25 - 150.4| < δ) : |calculateAQI p - 250| < ε := by
  rw [abs_lt] at hp ⊢
  obtain ⟨hp1, hp2⟩ := hp
  rcases le_or_lt p.pm25 150.4 with hx | hx
  · rw [aqi_eq_piece4 p (by linarith) hx]
    constructor <;> first | linarith | (ring_nf; linarith)
  · rw [aqi_eq_piece5 p hx.le (by linarith)]
    constructor <;> first | linarith | (ring_nf; linarith)

/-- Local continuity bound of the AQI formula at the breakpoint 250.4. -/
theorem aqi_near_250_4 (ε δ : ℚ) (hε : 0 < ε) (hδ1 : δ ≤ 1) (hδ2 : δ ≤ ε / 5)
    (p : Pollutants) (hp : |p.pm25 - 250.4| < δ) : |calculateAQI p - 350| < ε := by
  rw [abs_lt] at hp ⊢
  obtain ⟨hp1, hp2⟩ := hp
  rcases le_or_lt p.pm25 250.4 with hx | hx
  · rw [aqi_eq_piece5 p (by linarith) hx]
    constructor <;> first | linarith | (ring_nf; linarith)
  · rw [aqi_eq_piece6 p hx.le, min_eq_right (by ring_nf; linarith)]
    constructor <;> first | linarith | (ring_nf; linarith)

/-- C4: the piecewise AQI formula takes the exact values 50, 100, 150,
250, 350 at its breakpoints, is continuous at each breakpoint, is monotone
non-decreasing in PM2.5 on the nonnegative axis, and is capped at 500. -/
theorem c4_aqi_breakpoints_monotone_capped :
    (∀ p : Pollutants, p.pm25 = 12 → calculateAQI p = 50) ∧
    (∀ p : Pollutants, p.pm25 = 35.4 → calculateAQI p = 100) ∧
    (∀ p : Pollutants, p.pm25 = 55.4 → calculateAQI p = 150) ∧
    (∀ p : Pollutants, p.pm25 = 150.4 → calculateAQI p = 250) ∧
    (∀ p : Pollutants, p.pm25 = 250.4 → calculateAQI p = 350) ∧
    (∀ ε : ℚ, 0 < ε → ∃ δ : ℚ, 0 < δ ∧ ∀ p : Pollutants,
      (|p.pm25 - 12| < δ → |calculateAQI p - 50| < ε) ∧
      (|p.pm25 - 35.4| < δ → |calculateAQI p - 100| < ε) ∧
      (|p.pm25 - 55.4| < δ → |calculateAQI p - 150| < ε) ∧
      (|p.pm25 - 150.4| < δ → |calculateAQI p - 250| < ε) ∧
      (|p.pm25 - 250.4| < δ → |calculateAQI p - 350| < ε)) ∧
    (∀ p q : Pollutants, 0 ≤ p.pm25 → p.pm25 ≤ q.pm25 →
      calculateAQI p ≤ calculateAQI q) ∧
    (∀ p : Pollutants, calculateAQI p ≤ 500) := by
  refine ⟨?_, ?_, ?_, ?_, ?_, ?_, aqi_mono, aqi_le_500⟩
  · intro p h
    rw [aqi_eq_piece1 p (by rw [h]; norm_num) (le_of_eq h), h]
    norm_num
  · intro p h
    rw [aqi_eq_piece2 p (by rw [h]; norm_num) (le_of_eq h), h]
    norm_num
  · intro p h
    rw [aqi_eq_piece3 p (by rw [h]; norm_num) (le_of_eq h), h]
    norm_num
  · intro p h
    rw [aqi_eq_piece4 p (by rw [h]; norm_num) (le_of_eq h), h]
    norm_num
  · intro p h
    rw [aqi_eq_piece5 p (by rw [h]; norm_num) (le_of_eq h), h]
    norm_num
  · intro ε hε
    refine ⟨min 1 (ε / 5), lt_min one_pos (by linarith), fun p => ?_⟩
    exact ⟨aqi_near_12 ε _ hε (min_le_left _ _) (min_le_right _ _) p,
      aqi_near_35_4 ε _ hε (min_le_left _ _) (min_le_right _ _) p,
      aqi_near_55_4 ε _ hε (min_le_left _ _) (min_le_right _ _) p,
      aqi_near_150_4 ε _ hε (min_le_left _ _) (min_le_right _ _) p,
      aqi_near_250_4 ε _ hε (min_le_left _ _) (min_le_right _ _) p⟩

/-- Witness for C4: monotonicity of the AQI formula applied at the
concrete PM2.5 values 6 and 20. -/
theorem c4_witness :
    calculateAQI { no2 := 0, pm25 := 6, o3 := 0 } ≤
      calculateAQI { no2 := 0, pm25 := 20, o3 := 0 } :=
  c4_aqi_breakpoints_monotone_capped.2.2.2.2.2.2.1
    { no2 := 0, pm25 := 6, o3 := 0 } { no2 := 0, pm25 := 20, o3 := 0 }
    (by norm_num) (by norm_num)

/-- C6: the air-quality status function returns healthy exactly on
AQI at most 50, unhealthy exactly on 50 < AQI at most 150 and hazardous
exactly above 150, with the stated concrete boundary values. -/
theorem c6_air_status_thresholds :
    (∀ aqi : ℚ,
      (determineAirQualityStatus aqi = AirStatus.healthy ↔ aqi ≤ 50) ∧
      (determineAirQualityStatus aqi = AirStatus.unhealthy ↔ 50 < aqi ∧ aqi ≤ 150) ∧
      (determineAirQualityStatus aqi = AirStatus.hazardous ↔ 150 < aqi)) ∧
    determineAirQualityStatus 50 = AirStatus.healthy ∧
    determineAirQualityStatus 51 = AirStatus.unhealthy ∧
    determineAirQualityStatus 150 = AirStatus.unhealthy ∧
    determineAirQualityStatus 151 = AirStatus.hazardous := by
  refine ⟨fun aqi => ?_, by norm_num [determineAirQualityStatus],
    by norm_num [determineAirQualityStatus], by norm_num [determineAirQualityStatus],
    by norm_num [determineAirQualityStatus]⟩
  unfold determineAirQualityStatus
  split_ifs with h1 h2
  · exact ⟨⟨fun _ => h1, fun _ => rfl⟩,
      ⟨fun hh => absurd hh (by simp), fun hh => absurd h1 (not_le.mpr hh.1)⟩,
      ⟨fun hh => absurd hh (by simp), fun hh => absurd h1 (not_le.mpr (by linarith))⟩⟩
  · exact ⟨⟨fun hh => absurd hh (by simp), fun hh => absurd hh h1⟩,
      ⟨fun _ => ⟨not_le.mp h1, h2⟩, fun _ => rfl⟩,
      ⟨fun hh => absurd hh (by simp), fun hh => absurd h2 (not_le.mpr hh)⟩⟩
  · exact ⟨⟨fun hh => absurd hh (by simp), fun hh => absurd hh h1⟩,
      ⟨fun hh => absurd hh (by simp), fun hh => absurd hh.2 h2⟩,
      ⟨fun _ => not_le.mp h2, fun _ => rfl⟩⟩

/-- C7: the weather normalizer's temperature status is critical exactly
above 40, fever exactly on 35 < t at most 40 and normal exactly on t at
most 35; in particular 40 maps to fever and 35 to normal. -/
theorem c7_temperature_status_thresholds :
    (∀ t : ℚ,
      (determineTemperatureStatus t = TempStatus.critical ↔ 40 < t) ∧
      (determineTemperatureStatus t = TempStatus.fever ↔ 35 < t ∧ t ≤ 40) ∧
      (determineTemperatureStatus t = TempStatus.normal ↔ t ≤ 35)) ∧
    determineTemperatureStatus 40 = TempStatus.fever ∧
    determineTemperatureStatus 35 = TempStatus.normal := by
  refine ⟨fun t => ?_, by norm_num [determineTemperatureStatus],
    by norm_num [determineTemperatureStatus]⟩
  unfold determineTemperatureStatus
  split_ifs with h1 h2
  · exact ⟨⟨fun _ => h1, fun _ => rfl⟩,
      ⟨fun hh => absurd hh (by simp), fun hh => absurd hh.2 (not_le.mpr h1)⟩,
      ⟨fun hh => absurd hh (by simp), fun hh => absurd hh (not_le.mpr (by linarith))⟩⟩
  · exact ⟨⟨fun hh => absurd hh (by simp), fun hh => absurd hh h1⟩,
      ⟨fun _ => ⟨h2, not_lt.mp h1⟩, fun _ => rfl⟩,
      ⟨fun hh => absurd hh (by simp), fun hh => absurd hh (not_le.mpr h2)⟩⟩
  · exact ⟨⟨fun hh => absurd hh (by simp), fun hh => absurd hh h1⟩,
      ⟨fun hh => absurd hh (by simp), fun hh => absurd hh.1 h2⟩,
      ⟨fun _ => not_lt.mp h2, fun _ => rfl⟩⟩

/-- Counterexample for C9: the weather normalizer passes the raw main.temp
through unclamped, so a provider value of 1000 degrees yields a normalized
temperature value of 1000, outside the validator's documented plausible
range of -50 to 60 degrees. -/
theorem c9_counterexample_temperature_unclamped :
    (processWeatherData hotWeatherResponse).temperature = 1000 ∧
    temperatureValueUnrealistic (processWeatherData hotWeatherResponse).temperature := by
  refine ⟨rfl, Or.inr ?_⟩
  show (60 : ℚ) < 1000
  norm_num

/-- C9 (amended): the air-quality normalizer's AQI is always clamped into
[0,500] whatever the upstream pollutant values are, but the weather
normalizer performs no clamping: its temperature value always equals the
raw main.temp of the provider response. -/
theorem c9_amended_aqi_clamped_temperature_passthrough :
    (∀ p : Pollutants, 0 ≤ calculateAQI p ∧ calculateAQI p ≤ 500) ∧
    (∀ response : WeatherResponse,
      (processWeatherData response).temperature = response.main.temp) :=
  ⟨fun p => ⟨aqi_nonneg p, aqi_le_500 p⟩, fun _ => rfl⟩

/-- C8: the earthquake normalizer reports exactly the count of events of
the last 30 days, never reports pollution hotspots, and its status is
clean exactly on count 0, infected exactly on counts 1 and 2, and critical
exactly on counts of 3 or more. -/
theorem c8_earthquake_counts (now : ℤ) (response : USGSEarthquakeResponse) :
    (processEarthquakeData now response).disasterEvents = (recentQuakeCount now response : ℚ) ∧
    (processEarthquakeData now response).pollutionHotspots = 0 ∧
    ((processEarthquakeData now response).status = InfectionStatus.clean ↔
      recentQuakeCount now response = 0) ∧
    ((processEarthquakeData now response).status = InfectionStatus.infected ↔
      recentQuakeCount now response = 1 ∨ recentQuakeCount now response = 2) ∧
    ((processEarthquakeData now response).status = InfectionStatus.critical ↔
      3 ≤ recentQuakeCount now response) := by
  unfold processEarthquakeData
  by_cases h0 : response.features.isEmpty
  · rw [if_pos h0]
    rw [List.isEmpty_iff] at h0
    simp [recentQuakeCount, h0]
  · rw [if_neg h0]
    generalize recentQuakeCount now response = n
    split_ifs with h1 h2 <;>
      refine ⟨rfl, rfl, ?_, ?_, ?_⟩ <;>
      constructor <;>
      intro hh <;>
      first
        | rfl
        | omega
        | (simp at hh)
        | (exfalso; rcases hh with hh | hh <;> omega)
        | (exfalso; omega)

/-- C5: when the seismic fetch is rejected but air quality and weather are
fulfilled, the pipeline still produces a complete CityVitals whose
infections vital is the clean zero default, and the overall score is
Math.round of the four remaining weighted category scores plus the weight
0.15 times the default infections score 100. -/
theorem c5_seismic_failure_defaults (location : LocationData) (aq : OpenAQResponse)
    (w : WeatherResponse) (now : ℤ) (heartRand greenRand ndviRand : ℚ) :
    (processCityVitals location (Settled.fulfilled aq) Settled.rejected (Settled.fulfilled w)
        now heartRand greenRand ndviRand).infections.disasterEvents = 0 ∧
    (processCityVitals location (Settled.fulfilled aq) Settled.rejected (Settled.fulfilled w)
        now heartRand greenRand ndviRand).infections.pollutionHotspots = 0 ∧
    (processCityVitals location (Settled.fulfilled aq) Settled.rejected (Settled.fulfilled w)
        now heartRand greenRand ndviRand).infections.status = InfectionStatus.clean ∧
    calculateInfectionsScore
      ((processCityVitals location (Settled.fulfilled aq) Settled.rejected (Settled.fulfilled w)
        now heartRand greenRand ndviRand).infections) = 100 ∧
    (processCityVitals location (Settled.fulfilled aq) Settled.rejected (Settled.fulfilled w)
        now heartRand greenRand ndviRand).overallHealth.score =
      jsRound (0.15 * calculateHeartRateScore
          ((processCityVitals location (Settled.fulfilled aq) Settled.rejected
            (Settled.fulfilled w) now heartRand greenRand ndviRand).heartRate) +
        0.20 * calculateTemperatureScore
          ((processCityVitals location (Settled.fulfilled aq) Settled.rejected
            (Settled.fulfilled w) now heartRand greenRand ndviRand).temperature) +
        0.25 * calculateAirQualityScore
          ((processCityVitals location (Settled.fulfilled aq) Settled.rejected
            (Settled.fulfilled w) now heartRand greenRand ndviRand).bloodOxygen) +
        0.25 * calculateGreenSpaceScore
          ((processCityVitals location (Settled.fulfilled aq) Settled.rejected
            (Settled.fulfilled w) now heartRand greenRand ndviRand).immuneSystem) +
        0.15 * 100) := by
  have hinf : calculateInfectionsScore
      ((assembledVitals (settleAirQuality (Settled.fulfilled aq))
        (settleDisaster now Settled.rejected) (settleTemperature (Settled.fulfilled w))
        heartRand greenRand ndviRand).infections) = 100 := by
    show calculateInfectionsScore
      { disasterEvents := 0
        pollutionHotspots := 0
        status := InfectionStatus.clean
        description := "No recent natural disasters detected." } = 100
    simp [calculateInfectionsScore]
  refine ⟨rfl, rfl, rfl, hinf, ?_⟩
  show (generateDiagnosis (assembledVitals (settleAirQuality (Settled.fulfilled aq))
      (settleDisaster now Settled.rejected) (settleTemperature (Settled.fulfilled w))
      heartRand greenRand ndviRand)).overallScore =
    jsRound (0.15 * calculateHeartRateScore
        ((assembledVitals (settleAirQuality (Settled.fulfilled aq))
          (settleDisaster now Settled.rejected) (settleTemperature (Settled.fulfilled w))
          heartRand greenRand ndviRand).heartRate) +
      0.20 * calculateTemperatureScore
        ((assembledVitals (settleAirQuality (Settled.fulfilled aq))
          (settleDisaster now Settled.rejected) (settleTemperature (Settled.fulfilled w))
          heartRand greenRand ndviRand).temperature) +
      0.25 * calculateAirQualityScore
        ((assembledVitals (settleAirQuality (Settled.fulfilled aq))
          (settleDisaster now Settled.rejected) (settleTemperature (Settled.fulfilled w))
          heartRand greenRand ndviRand).bloodOxygen) +
      0.25 * calculateGreenSpaceScore
        ((assembledVitals (settleAirQuality (Settled.fulfilled aq))
          (settleDisaster now Settled.rejected) (settleTemperature (Settled.fulfilled w))
          heartRand greenRand ndviRand).immuneSystem) +
      0.15 * 100)
  rw [generateDiagnosis_overallScore, hinf]

/-- The nested severity conditional of processCityVitals agrees with the
four-way severity match (shared helper). -/
theorem severityBranch_eq (s : Severity) :
    (if s = Severity.low then OverallStatus.excellent
     else if s = Severity.medium then OverallStatus.good
     else if s = Severity.high then OverallStatus.fair
     else OverallStatus.poor) =
      (match s with
        | Severity.low => OverallStatus.excellent
        | Severity.medium => OverallStatus.good
        | Severity.high => OverallStatus.fair
        | Severity.critical => OverallStatus.poor) := by
  cases s <;> rfl

/-- The four-way severity match never produces the critical status
(shared helper). -/
theorem severityMatch_ne_critical (s : Severity) :
    (match s with
      | Severity.low => OverallStatus.excellent
      | Severity.medium => OverallStatus.good
      | Severity.high => OverallStatus.fair
      | Severity.critical => OverallStatus.poor) ≠ OverallStatus.critical := by
  cases s <;> simp

/-- C10: for every combination of settled fetch results the pipeline maps
severity low, medium, high, critical to overall status excellent, good,
fair, poor respectively, so the produced status is always one of those
four and the critical status declared in the CityVitals type is never
assigned. -/
theorem c10_overall_status_mapping (location : LocationData)
    (airQualityResult : Settled OpenAQResponse)
    (earthquakeResult : Settled USGSEarthquakeResponse)
    (weatherResult : Settled WeatherResponse)
    (now : ℤ) (heartRand greenRand ndviRand : ℚ) :
    ((processCityVitals location airQualityResult earthquakeResult weatherResult now
        heartRand greenRand ndviRand).overallHealth.status =
      (match determineSeverity ((processCityVitals location airQualityResult earthquakeResult
          weatherResult now heartRand greenRand ndviRand).overallHealth.score) with
        | Severity.low => OverallStatus.excellent
        | Severity.medium => OverallStatus.good
        | Severity.high => OverallStatus.fair
        | Severity.critical => OverallStatus.poor)) ∧
    ((processCityVitals location airQualityResult earthquakeResult weatherResult now
        heartRand greenRand ndviRand).overallHealth.status = OverallStatus.excellent ∨
      (processCityVitals location airQualityResult earthquakeResult weatherResult now
        heartRand greenRand ndviRand).overallHealth.status = OverallStatus.good ∨
      (processCityVitals location airQualityResult earthquakeResult weatherResult now
        heartRand greenRand ndviRand).overallHealth.status = OverallStatus.fair ∨
      (processCityVitals location airQualityResult earthquakeResult weatherResult now
        heartRand greenRand ndviRand).overallHealth.status = OverallStatus.poor) ∧
    (processCityVitals location airQualityResult earthquakeResult weatherResult now
        heartRand greenRand ndviRand).overallHealth.status ≠ OverallStatus.critical := by
  have h1 : (processCityVitals location airQualityResult earthquakeResult weatherResult now
      heartRand greenRand ndviRand).overallHealth.status =
      (match determineSeverity ((processCityVitals location airQualityResult earthquakeResult
          weatherResult now heartRand greenRand ndviRand).overallHealth.score) with
        | Severity.low => OverallStatus.excellent
        | Severity.medium => OverallStatus.good
        | Severity.high => OverallStatus.fair
        | Severity.critical => OverallStatus.poor) :=
    severityBranch_eq (determineSeverity ((processCityVitals location airQualityResult
      earthquakeResult weatherResult now heartRand greenRand ndviRand).overallHealth.score))
  refine ⟨h1, ?_, ?_⟩
  · rw [h1]
    cases hS : determineSeverity ((processCityVitals location airQualityResult earthquakeResult
        weatherResult now heartRand greenRand ndviRand).overallHealth.score) <;> simp
  · rw [h1]
    exact severityMatch_ne_critical _

end CityPulse
